import Mathlib

/-!
Shallow embedding of `src/main.py`, a FastAPI CRUD backend over a single
MongoDB collection `"flashcard"`.

Python dictionaries are modelled as ordered association lists
(`Doc := List (String × BVal)`); MongoDB/BSON values as the inductive
type `BVal`.  ObjectId values are represented by their 24-character
lowercase hex string (a faithful bijection with the 12 raw bytes:
`str(oid)` is exactly that hex string, and `ObjectId(s)` accepts exactly
the 24-character hex strings).  Timezone-aware UTC datetimes are
represented by their Unix epoch second count.
-/

set_option autoImplicit false

namespace FlashcardApi

/-- BSON/Python values as they occur in this application's documents.
The only arrays this application stores or queries are string arrays
(the `tags` field), so `vList` carries a list of strings. -/
inductive BVal where
  | vOid (hex : String)
  | vDatetime (epoch : Int)
  | vStr (s : String)
  | vInt (n : Int)
  | vBool (b : Bool)
  | vNull
  | vList (elems : List String)
deriving DecidableEq, Repr

/-- A Python `dict` / BSON document: ordered association list of fields. -/
abbrev Doc := List (String × BVal)

/-- `doc.get(k)`: value of the first entry with key `k` (Python dicts have
unique keys; the model uses first-occurrence semantics). -/
def dGet (doc : Doc) (k : String) : Option BVal :=
  match doc with
  | [] => none
  | (k', v) :: rest => if k' = k then some v else dGet rest k

/-- `doc[k] = v`: replace the value of the existing entry with key `k`
in place, or append a new entry at the end (Python dict insertion order). -/
def dSet (doc : Doc) (k : String) (v : BVal) : Doc :=
  match doc with
  | [] => [(k, v)]
  | (k', v') :: rest => if k' = k then (k', v) :: rest else (k', v') :: dSet rest k v

/-- `doc.pop(k, None)`'s effect on the dict: remove the entry with key `k`
if present. -/
def dPop (doc : Doc) (k : String) : Doc :=
  List.filter (fun kv => !(kv.1 = k : Bool)) doc

/-- Zero-padding to two digits, as in Python time formatting. -/
def pad2 (n : Nat) : String :=
  if n < 10 then "0" ++ toString n else toString n

/-- Proleptic Gregorian civil date from a day count since 1970-01-01
(the standard civil-from-days calculation used by datetime libraries). -/
def civilFromDays (days : Int) : Int × Nat × Nat :=
  let z := days + 719468
  let era := Int.fdiv z 146097
  let doe := (z - era * 146097).toNat
  let yoe := (doe - doe / 1460 + doe / 36524 - doe / 146096) / 365
  let doy := doe - (365 * yoe + yoe / 4 - yoe / 100)
  let mp := (5 * doy + 2) / 153
  let d := doy - (153 * mp + 2) / 5 + 1
  let m := if mp < 10 then mp + 3 else mp - 9
  let y : Int := (yoe : Int) + era * 400
  (if m ≤ 2 then y + 1 else y, m, d)

/-- `datetime.astimezone(timezone.utc).isoformat()` for an aware UTC
datetime with whole-second resolution: `YYYY-MM-DDTHH:MM:SS+00:00`. -/
def isoUtc (epoch : Int) : String :=
  let days := Int.fdiv epoch 86400
  let secs := (epoch - days * 86400).toNat
  let ymd := civilFromDays days
  toString ymd.1 ++ "-" ++ pad2 ymd.2.1 ++ "-" ++ pad2 ymd.2.2 ++ "T" ++
    pad2 (secs / 3600) ++ ":" ++ pad2 (secs % 3600 / 60) ++ ":" ++ pad2 (secs % 60) ++ "+00:00"

/-- Python `str(datetime)` uses a space separator instead of `T`. -/
def isoUtcSpace (epoch : Int) : String :=
  let days := Int.fdiv epoch 86400
  let secs := (epoch - days * 86400).toNat
  let ymd := civilFromDays days
  toString ymd.1 ++ "-" ++ pad2 ymd.2.1 ++ "-" ++ pad2 ymd.2.2 ++ " " ++
    pad2 (secs / 3600) ++ ":" ++ pad2 (secs % 3600 / 60) ++ ":" ++ pad2 (secs % 60) ++ "+00:00"

/-- Python `str(v)` for the values of `BVal` (ObjectId prints as its hex
string, `None` as `"None"`, booleans capitalized, string lists via
elementwise `repr`). -/
def pyStr : BVal → String
  | .vOid h => h
  | .vDatetime t => isoUtcSpace t
  | .vStr s => s
  | .vInt n => toString n
  | .vBool b => if b then "True" else "False"
  | .vNull => "None"
  | .vList l => "[" ++ String.intercalate ", " (l.map (fun s => "\x27" ++ s ++ "\x27")) ++ "]"

/-- The datetime normalization applied to each value inside
`serialize_doc`'s final loop: datetimes become their UTC ISO string. -/
def convDT : BVal → BVal
  | .vDatetime t => .vStr (isoUtc t)
  | v => v

/-- `serialize_doc` from `src/main.py` lines 23-37: copy the dict, move
`_id` to a string `id`, drop `_id`, and ISO-format every datetime value. -/
def serialize_doc (doc : Doc) : Doc :=
  if doc = [] then doc
  else
    let i := dGet doc "_id"
    let doc1 : Doc :=
      match i with
      | some (.vOid h) => dSet doc "id" (.vStr h)
      | some .vNull => doc
      | some v => if dGet doc "id" = none then dSet doc "id" (.vStr (pyStr v)) else doc
      | none => doc
    let doc2 := dPop doc1 "_id"
    List.map (fun kv => (kv.1, convDT kv.2)) doc2

/-- ASCII lowercase of one character. -/
def charLower (c : Char) : Char :=
  if 65 ≤ c.toNat && c.toNat ≤ 90 then Char.ofNat (c.toNat + 32) else c

/-- `ObjectId(s)` from `bson`: accepts exactly the 24-character hex
strings (case-insensitive) and normalizes to lowercase (the canonical
form `str(oid)` prints); `none` models the `InvalidId` exception caught
by the endpoints. -/
def parseObjectId (s : String) : Option String :=
  if s.length = 24 && s.toList.all (fun c => c.isDigit ||
      (97 ≤ c.toNat && c.toNat ≤ 102) || (65 ≤ c.toNat && c.toNat ≤ 70))
  then some (String.mk (s.toList.map charLower)) else none

/-- Modelled from the spec: the `Flashcard` pydantic model from
`schemas.py` (not in `src/`).  The spec says the data model has one
entity (Flashcard) with five scalar/list fields; the five are the
`FlashcardOut` fields minus the serialization-added `id`, `created_at`
and `updated_at`. -/
structure Flashcard where
  question : String
  answer : String
  deck : Option String := none
  tags : Option (List String) := none
  difficulty : Option String := none
deriving DecidableEq, Repr

/-- An optional value as pydantic dumps it: `None` becomes BSON null. -/
def optVal {α : Type} (f : α → BVal) : Option α → BVal
  | none => .vNull
  | some a => f a

/-- `card.model_dump()`: a dict with the five model fields in
declaration order. -/
def Flashcard.model_dump (c : Flashcard) : Doc :=
  [("question", .vStr c.question), ("answer", .vStr c.answer),
   ("deck", optVal BVal.vStr c.deck),
   ("tags", optVal BVal.vList c.tags),
   ("difficulty", optVal BVal.vStr c.difficulty)]

/-- The database handle: the single `"flashcard"` collection, a list of
documents in insertion order. -/
structure DBState where
  flashcard : List Doc
deriving DecidableEq, Repr

/-- Whether a document satisfies one filter clause `k: v`, per MongoDB
equality-match semantics: the field equals `v`, or the field is an array
containing `v`; a missing field only matches `null`. -/
def fieldMatches (doc : Doc) (k : String) (v : BVal) : Bool :=
  match dGet doc k with
  | none => v = .vNull
  | some w =>
    (w = v : Bool) || (match w, v with
                       | .vList l, .vStr t => l.contains t
                       | _, _ => false)

/-- Whether a document satisfies every clause of a filter document. -/
def docMatches (doc : Doc) (filter : Doc) : Bool :=
  filter.all (fun kv => fieldMatches doc kv.1 kv.2)

/-- `collection.find_one({"_id": oid})`: first document whose `_id` is
the given ObjectId. -/
def find_one (coll : List Doc) (oid : String) : Option Doc :=
  coll.find? (fun d => dGet d "_id" = some (.vOid oid))

/-- `collection.update_one({"_id": oid}, {"$set": upd})`: apply each
field of `upd` to the first matching document; also return
`matched_count` (`1` if a document matched, else `0`). -/
def applySet (doc : Doc) (upd : Doc) : Doc :=
  upd.foldl (fun d kv => dSet d kv.1 kv.2) doc

def update_one (coll : List Doc) (oid : String) (upd : Doc) : List Doc × Nat :=
  match coll with
  | [] => ([], 0)
  | d :: rest =>
    if dGet d "_id" = some (.vOid oid) then (applySet d upd :: rest, 1)
    else
      let r := update_one rest oid upd
      (d :: r.1, r.2)

/-- `collection.delete_one({"_id": oid})`: remove the first matching
document; also return `deleted_count`. -/
def delete_one (coll : List Doc) (oid : String) : List Doc × Nat :=
  match coll with
  | [] => ([], 0)
  | d :: rest =>
    if dGet d "_id" = some (.vOid oid) then (rest, 1)
    else
      let r := delete_one rest oid
      (d :: r.1, r.2)

/-- Python truthiness of an `Optional[str]` parameter: `None` and `""`
are falsy. -/
def truthy : Option String → Bool
  | none => false
  | some s => !(s = "" : Bool)

/-- Result-count truncation by an optional limit. -/
def truncateBy (limit : Option Nat) (docs : List Doc) : List Doc :=
  match limit with
  | none => docs
  | some n => docs.take n

/-- Modelled from the spec: `get_documents` from `database.py` (not in
`src/`) — a direct pass-through find on the named collection with a
filter document and an optional result-count limit, and no other
pagination. -/
def get_documents (st : DBState) (filter : Doc) (limit : Option Nat) : List Doc :=
  truncateBy limit (st.flashcard.filter (fun d => docMatches d filter))

/-- Modelled from the spec: `create_document` from `database.py` (not in
`src/`) — a direct pass-through insert of the model's fields into the
named collection; MongoDB assigns the fresh ObjectId `newOid` and the
function returns it as a string. -/
def create_document (st : DBState) (card : Flashcard) (newOid : String) : DBState × String :=
  (⟨st.flashcard ++ [dSet card.model_dump "_id" (.vOid newOid)]⟩, newOid)

/-- What an endpoint handler can produce: a JSON document, a JSON list,
an `HTTPException(status, detail)`, or an uncaught Python exception
(escapes the handler; not an `HTTPException` raised by the code). -/
inductive Response where
  | ok (body : Doc)
  | okList (bodies : List Doc)
  | err (status : Nat) (detail : String)
  | exn (msg : String)
deriving DecidableEq, Repr

/-- A database-driver call, recorded in issue order. -/
inductive DbOp where
  | opFind (coll : String) (filter : Doc) (limit : Option Nat)
  | opFindOne (coll : String) (filter : Doc)
  | opInsertOne (coll : String) (doc : Doc)
  | opUpdateOne (coll : String) (filter : Doc) (update : Doc)
  | opDeleteOne (coll : String) (filter : Doc)
  | opListCollectionNames
deriving DecidableEq, Repr

/-- Outcome of one request: the response, the resulting database handle,
and the trace of driver calls issued. -/
structure EndpointResult where
  response : Response
  db : Option DBState
  ops : List DbOp
deriving DecidableEq, Repr

/-- `GET /api/flashcards` (`list_flashcards`, `src/main.py` lines
100-111).  `deck`, `tag` and `limit` are the query parameters. -/
def list_flashcards (db : Option DBState) (deck tag : Option String)
    (limit : Option Nat) : EndpointResult :=
  match db with
  | none => ⟨.err 500 "Database not available", none, []⟩
  | some st =>
    let f1 : Doc := if truthy deck then [("deck", .vStr (deck.getD ""))] else []
    let f2 : Doc := if truthy tag then [("tags", .vStr (tag.getD ""))] else []
    let filter_dict : Doc := f1 ++ f2
    let docs := get_documents st filter_dict limit
    ⟨.okList (docs.map serialize_doc), some st, [.opFind "flashcard" filter_dict limit]⟩

/-- `POST /api/flashcards` (`create_flashcard`, `src/main.py` lines
114-120).  `newOid` is the ObjectId MongoDB generates for the insert. -/
def create_flashcard (db : Option DBState) (card : Flashcard)
    (newOid : String) : EndpointResult :=
  match db with
  | none => ⟨.err 500 "Database not available", none, []⟩
  | some st =>
    let r := create_document st card newOid
    let ops := [DbOp.opInsertOne "flashcard" (dSet card.model_dump "_id" (.vOid newOid)),
                DbOp.opFindOne "flashcard" [("_id", .vOid r.2)]]
    match find_one r.1.flashcard r.2 with
    | some doc => ⟨.ok (serialize_doc doc), some r.1, ops⟩
    | none => ⟨.exn "TypeError", some r.1, ops⟩

/-- `GET /api/flashcards/{card_id}` (`get_flashcard`, `src/main.py`
lines 123-134).  Note the Python truthiness test `if not doc`. -/
def get_flashcard (db : Option DBState) (card_id : String) : EndpointResult :=
  match db with
  | none => ⟨.err 500 "Database not available", none, []⟩
  | some st =>
    match parseObjectId card_id with
    | none => ⟨.err 400 "Invalid ID", some st, []⟩
    | some oid =>
      let ops := [DbOp.opFindOne "flashcard" [("_id", .vOid oid)]]
      match find_one st.flashcard oid with
      | none => ⟨.err 404 "Flashcard not found", some st, ops⟩
      | some doc =>
        if doc = [] then ⟨.err 404 "Flashcard not found", some st, ops⟩
        else ⟨.ok (serialize_doc doc), some st, ops⟩

/-- `PUT /api/flashcards/{card_id}` (`update_flashcard`, `src/main.py`
lines 137-152).  `now` is `datetime.now(timezone.utc)`. -/
def update_flashcard (db : Option DBState) (card_id : String)
    (card : Flashcard) (now : Int) : EndpointResult :=
  match db with
  | none => ⟨.err 500 "Database not available", none, []⟩
  | some st =>
    match parseObjectId card_id with
    | none => ⟨.err 400 "Invalid ID", some st, []⟩
    | some oid =>
      let update_data := dSet card.model_dump "updated_at" (.vDatetime now)
      let r := update_one st.flashcard oid update_data
      let st' : DBState := ⟨r.1⟩
      let ops1 := [DbOp.opUpdateOne "flashcard" [("_id", .vOid oid)] update_data]
      if r.2 = 0 then ⟨.err 404 "Flashcard not found", some st', ops1⟩
      else
        let ops := ops1 ++ [DbOp.opFindOne "flashcard" [("_id", .vOid oid)]]
        match find_one st'.flashcard oid with
        | some doc => ⟨.ok (serialize_doc doc), some st', ops⟩
        | none => ⟨.exn "TypeError", some st', ops⟩

/-- `DELETE /api/flashcards/{card_id}` (`delete_flashcard`,
`src/main.py` lines 155-167). -/
def delete_flashcard (db : Option DBState) (card_id : String) : EndpointResult :=
  match db with
  | none => ⟨.err 500 "Database not available", none, []⟩
  | some st =>
    match parseObjectId card_id with
    | none => ⟨.err 400 "Invalid ID", some st, []⟩
    | some oid =>
      let r := delete_one st.flashcard oid
      let st' : DBState := ⟨r.1⟩
      let ops := [DbOp.opDeleteOne "flashcard" [("_id", .vOid oid)]]
      if r.2 = 0 then ⟨.err 404 "Flashcard not found", some st', ops⟩
      else ⟨.ok [("success", .vBool true)], some st', ops⟩

/-- `GET /` (`read_root`, `src/main.py` lines 40-42). -/
def read_root (db : Option DBState) : EndpointResult :=
  ⟨.ok [("message", .vStr "Hello from FastAPI Backend!")], db, []⟩

/-- `GET /api/hello` (`hello`, `src/main.py` lines 45-47). -/
def hello (db : Option DBState) : EndpointResult :=
  ⟨.ok [("message", .vStr "Hello from the backend API!")], db, []⟩

/-- `GET /test` (`test_database`, `src/main.py` lines 50-85).
`dbName` is `db.name` when the handle has a `name` attribute;
`listResult` is the outcome of `db.list_collection_names()`; `urlSet`
and `nameSet` tell whether the two environment variables are set. -/
def test_database (db : Option DBState) (dbName : Option String)
    (listResult : Except String (List String)) (urlSet nameSet : Bool) : EndpointResult :=
  let base : Doc :=
    [("backend", .vStr "✅ Running"), ("database", .vStr "❌ Not Available"),
     ("database_url", .vNull), ("database_name", .vNull),
     ("connection_status", .vStr "Not Connected"), ("collections", .vList [])]
  let r1 : Doc :=
    match db with
    | some _ =>
      let r := dSet (dSet (dSet (dSet base "database" (.vStr "✅ Available"))
        "database_url" (.vStr "✅ Configured"))
        "database_name" (match dbName with
                         | some n => .vStr n
                         | none => .vStr "✅ Connected"))
        "connection_status" (.vStr "Connected")
      match listResult with
      | .ok cols =>
        dSet (dSet r "collections" (.vList (cols.take 10)))
          "database" (.vStr "✅ Connected & Working")
      | .error e => dSet r "database" (.vStr ("⚠️  Connected but Error: " ++ e.take 50))
    | none => dSet base "database" (.vStr "⚠️  Available but not initialized")
  let r2 := dSet (dSet r1 "database_url" (.vStr (if urlSet then "✅ Set" else "❌ Not Set")))
    "database_name" (.vStr (if nameSet then "✅ Set" else "❌ Not Set"))
  ⟨.ok r2, db, match db with
               | some _ => [DbOp.opListCollectionNames]
               | none => []⟩

/-- Field shapes of the Flashcard entity: each field is a scalar or a
list of strings. -/
inductive FieldKind where
  | scalar
  | listOfStrings
deriving DecidableEq, Repr

/-- The five fields of the Flashcard entity with their shapes. -/
def flashcardEntityFields : List (String × FieldKind) :=
  [("question", .scalar), ("answer", .scalar), ("deck", .scalar),
   ("tags", .listOfStrings), ("difficulty", .scalar)]

/-- The entities of the application's data model: the schemas it stores.
Only `Flashcard` is imported from `schemas.py` and only the
`"flashcard"` collection is touched. -/
def dataModelEntities : List (String × List (String × FieldKind)) :=
  [("Flashcard", flashcardEntityFields)]

/-- The fields of the `FlashcardOut` response model (`src/main.py` lines
89-97): the five entity fields plus the serialization-added `id`,
`created_at` and `updated_at`. -/
def flashcardOutFields : List String :=
  ["id", "question", "answer", "deck", "tags", "difficulty",
   "created_at", "updated_at"]

/-- `GET /schema` (`get_schema`, `src/main.py` lines 171-176): returns
`Flashcard.model_json_schema()`, modelled as the entity's field-name
list (the schema of the spec-modelled `Flashcard`). -/
def get_schema (db : Option DBState) : EndpointResult :=
  ⟨.ok [("flashcard", .vList (flashcardEntityFields.map Prod.fst))], db, []⟩

/-- Tags for the nine route handlers registered on `app`. -/
inductive Handler where
  | hRoot | hHello | hTest | hListFlashcards | hCreateFlashcard
  | hGetFlashcard | hUpdateFlashcard | hDeleteFlashcard | hSchema
deriving DecidableEq, Repr

/-- One registered route: HTTP method, path template, handler. -/
structure Route where
  method : String
  path : String
  handler : Handler
deriving DecidableEq, Repr

/-- The route table of `app`, in registration order (`src/main.py`). -/
def appRoutes : List Route :=
  [⟨"GET", "/", .hRoot⟩,
   ⟨"GET", "/api/hello", .hHello⟩,
   ⟨"GET", "/test", .hTest⟩,
   ⟨"GET", "/api/flashcards", .hListFlashcards⟩,
   ⟨"POST", "/api/flashcards", .hCreateFlashcard⟩,
   ⟨"GET", "/api/flashcards/\x7bcard_id\x7d", .hGetFlashcard⟩,
   ⟨"PUT", "/api/flashcards/\x7bcard_id\x7d", .hUpdateFlashcard⟩,
   ⟨"DELETE", "/api/flashcards/\x7bcard_id\x7d", .hDeleteFlashcard⟩,
   ⟨"GET", "/schema", .hSchema⟩]

/-- Whether a handler is one of the five flashcard CRUD endpoints. -/
def isFlashcardCrud : Handler → Bool
  | .hListFlashcards | .hCreateFlashcard | .hGetFlashcard
  | .hUpdateFlashcard | .hDeleteFlashcard => true
  | _ => false

/-- Whether a driver call reads or writes the `"flashcard"` collection. -/
def opTouchesFlashcards : DbOp → Bool
  | .opFind c _ _ => c == "flashcard"
  | .opFindOne c _ => c == "flashcard"
  | .opInsertOne c _ => c == "flashcard"
  | .opUpdateOne c _ _ => c == "flashcard"
  | .opDeleteOne c _ => c == "flashcard"
  | .opListCollectionNames => false

/-- The three `HTTPException`s the flashcard business logic raises. -/
def errAllowed (s : Nat) (det : String) : Prop :=
  (s = 400 ∧ det = "Invalid ID") ∨ (s = 404 ∧ det = "Flashcard not found") ∨
  (s = 500 ∧ det = "Database not available")

instance (s : Nat) (det : String) : Decidable (errAllowed s det) := by
  unfold errAllowed
  infer_instance

/-! ### Dictionary lemmas -/

theorem dGet_dSet_self (d : Doc) (k : String) (v : BVal) :
    dGet (dSet d k v) k = some v := by
  induction d with
  | nil => simp [dGet, dSet]
  | cons kv rest ih =>
    cases kv with
    | mk k' v' =>
      by_cases h : k' = k <;> simp [dGet, dSet, h, ih]

theorem dGet_dSet_ne (d : Doc) (k k' : String) (v : BVal) (h : k' ≠ k) :
    dGet (dSet d k v) k' = dGet d k' := by
  have h2 : ¬k = k' := fun hh => h hh.symm
  induction d with
  | nil => simp [dGet, dSet, h2]
  | cons kv rest ih =>
    cases kv with
    | mk k0 v0 =>
      by_cases h0 : k0 = k
      · subst h0
        simp [dGet, dSet, h2]
      · simp [dGet, dSet, h0, ih]

theorem dGet_dPop_self (d : Doc) (k : String) : dGet (dPop d k) k = none := by
  induction d with
  | nil => simp [dGet, dPop]
  | cons kv rest ih =>
    cases kv with
    | mk k0 v0 =>
      by_cases h0 : k0 = k <;> simp_all [dGet, dPop, List.filter]

theorem dGet_dPop_ne (d : Doc) (k k' : String) (h : k' ≠ k) :
    dGet (dPop d k) k' = dGet d k' := by
  induction d with
  | nil => simp [dGet, dPop]
  | cons kv rest ih =>
    cases kv with
    | mk k0 v0 =>
      by_cases h0 : k0 = k <;> by_cases h1 : k0 = k' <;>
        simp_all [dGet, dPop, List.filter]

theorem dPop_eq_self (d : Doc) (k : String) :
    dGet d k = none → dPop d k = d := by
  induction d with
  | nil => simp [dPop]
  | cons kv rest ih =>
    cases kv with
    | mk k0 v0 =>
      intro h
      by_cases h0 : k0 = k
      · simp [dGet, h0] at h
      · have h1 : dGet rest k = none := by simpa [dGet, h0] using h
        have step : dPop ((k0, v0) :: rest) k = (k0, v0) :: dPop rest k := by
          simp [dPop, List.filter_cons, h0]
        rw [step, ih h1]

/-- Keys are preserved by the value-normalization map. -/
theorem dGet_mapConv (d : Doc) (k : String) :
    dGet (List.map (fun kv => (kv.1, convDT kv.2)) d) k = (dGet d k).map convDT := by
  induction d with
  | nil => simp [dGet]
  | cons kv rest ih =>
    cases kv with
    | mk k0 v0 =>
      by_cases h0 : k0 = k <;> simp [dGet, h0, ih]

theorem convDT_convDT (v : BVal) : convDT (convDT v) = convDT v := by
  cases v <;> simp [convDT]

theorem mapConv_mapConv (d : Doc) :
    List.map (fun kv : String × BVal => (kv.1, convDT kv.2))
      (List.map (fun kv : String × BVal => (kv.1, convDT kv.2)) d) =
    List.map (fun kv : String × BVal => (kv.1, convDT kv.2)) d := by
  induction d with
  | nil => simp
  | cons kv rest ih => simp [ih, convDT_convDT]

/-- An entry of `dSet d k v` either has key `k` or was an entry of `d`. -/
theorem mem_dSet (d : Doc) (k : String) (v : BVal) (kv : String × BVal)
    (h : kv ∈ dSet d k v) : kv.1 = k ∨ kv ∈ d := by
  induction d with
  | nil =>
    simp [dSet] at h
    subst h
    exact Or.inl rfl
  | cons kv0 rest ih =>
    cases kv0 with
    | mk k0 v0 =>
      by_cases h0 : k0 = k
      · subst h0
        simp [dSet] at h
        rcases h with h | h
        · exact Or.inl (by simp [h])
        · exact Or.inr (List.mem_cons_of_mem _ h)
      · simp [dSet, h0] at h
        rcases h with h | h
        · exact Or.inr (by simp [h])
        · rcases ih h with h1 | h1
          · exact Or.inl h1
          · exact Or.inr (List.mem_cons_of_mem _ h1)

/-- `$set` with an update document that avoids key `k` leaves field `k`
unchanged. -/
theorem applySet_dGet_notMem (upd : Doc) (d : Doc) (k : String)
    (h : ∀ kv ∈ upd, kv.1 ≠ k) : dGet (applySet d upd) k = dGet d k := by
  induction upd generalizing d with
  | nil => rfl
  | cons kv rest ih =>
    have step : applySet d (kv :: rest) = applySet (dSet d kv.1 kv.2) rest := rfl
    rw [step, ih _ (fun kv0 h0 => h kv0 (List.mem_cons_of_mem _ h0)),
      dGet_dSet_ne _ _ _ _ (fun hh => h kv (List.mem_cons_self _ _) hh.symm)]

/-- The update document of `update_flashcard` only contains the five
model fields and `updated_at`; in particular it never touches `_id`. -/
theorem update_data_keys (card : Flashcard) (now : Int) (kv : String × BVal)
    (h : kv ∈ dSet card.model_dump "updated_at" (.vDatetime now)) :
    kv.1 ∈ ["question", "answer", "deck", "tags", "difficulty", "updated_at"] := by
  rcases mem_dSet _ _ _ _ h with h1 | h1
  · simp [h1]
  · simp [Flashcard.model_dump] at h1
    rcases h1 with h1 | h1 | h1 | h1 | h1 <;> simp [h1]

/-- Every non-empty output of `serialize_doc` is the normalization map
applied to a dict with `_id` popped. -/
theorem serialize_doc_shape (doc : Doc) :
    serialize_doc doc = [] ∨
    ∃ d1 : Doc, serialize_doc doc =
      List.map (fun kv => (kv.1, convDT kv.2)) (dPop d1 "_id") := by
  by_cases h : doc = []
  · exact Or.inl (by simp [serialize_doc, h])
  · unfold serialize_doc
    rw [if_neg h]
    exact Or.inr ⟨_, rfl⟩

/-- A dict of the shape produced by `serialize_doc` (no `_id`, all
values normalized) is a fixed point of `serialize_doc`. -/
theorem serialize_doc_fixed (d1 : Doc) :
    serialize_doc (List.map (fun kv => (kv.1, convDT kv.2)) (dPop d1 "_id")) =
      List.map (fun kv => (kv.1, convDT kv.2)) (dPop d1 "_id") := by
  by_cases h0 : List.map (fun kv : String × BVal => (kv.1, convDT kv.2)) (dPop d1 "_id") = []
  · rw [h0]; rfl
  · have h1 : dGet (List.map (fun kv : String × BVal => (kv.1, convDT kv.2))
        (dPop d1 "_id")) "_id" = none := by
      rw [dGet_mapConv, dGet_dPop_self]
      rfl
    unfold serialize_doc
    rw [if_neg h0, h1]
    show List.map (fun kv => (kv.1, convDT kv.2))
        (dPop (List.map (fun kv : String × BVal => (kv.1, convDT kv.2))
          (dPop d1 "_id")) "_id") =
      List.map (fun kv => (kv.1, convDT kv.2)) (dPop d1 "_id")
    rw [dPop_eq_self _ _ h1, mapConv_mapConv]

/-! ### Driver-call lemmas -/

theorem find_one_mem (coll : List Doc) (oid : String) (d : Doc)
    (h : find_one coll oid = some d) : d ∈ coll :=
  List.mem_of_find?_eq_some h

/-- Inserting a document whose `_id` is `oid` guarantees that a
subsequent `find_one` on `oid` succeeds. -/
theorem find_one_append (l : List Doc) (d : Doc) (oid : String)
    (h : dGet d "_id" = some (.vOid oid)) :
    ∃ x, find_one (l ++ [d]) oid = some x := by
  induction l with
  | nil => exact ⟨d, by simp [find_one, List.find?, h]⟩
  | cons d0 rest ih =>
    by_cases h0 : dGet d0 "_id" = some (.vOid oid)
    · exact ⟨d0, by simp [find_one, List.find?, h0]⟩
    · rcases ih with ⟨x, hx⟩
      refine ⟨x, ?_⟩
      simpa [find_one, List.find?, h0] using hx

/-- A `$set` update avoiding the key `_id` leaves every document's
`_id` unchanged, so after a successful `update_one` the follow-up
`find_one` still succeeds. -/
theorem update_one_find (coll : List Doc) (oid : String) (upd : Doc)
    (hupd : ∀ kv ∈ upd, kv.1 ≠ "_id")
    (h : (update_one coll oid upd).2 ≠ 0) :
    ∃ d, find_one (update_one coll oid upd).1 oid = some d := by
  induction coll with
  | nil => simp [update_one] at h
  | cons d rest ih =>
    by_cases h0 : dGet d "_id" = some (.vOid oid)
    · refine ⟨applySet d upd, ?_⟩
      have hid : dGet (applySet d upd) "_id" = some (.vOid oid) := by
        rw [applySet_dGet_notMem upd d "_id" hupd]
        exact h0
      simp [update_one, h0, find_one, List.find?, hid]
    · have h2 : (update_one rest oid upd).2 ≠ 0 := by
        simpa [update_one, h0] using h
      rcases ih h2 with ⟨x, hx⟩
      refine ⟨x, ?_⟩
      simpa [update_one, h0, find_one, List.find?] using hx

/-- `matched_count = 0` means no document matched, so the collection is
unchanged by `update_one`. -/
theorem update_one_zero (coll : List Doc) (oid : String) (upd : Doc) :
    (update_one coll oid upd).2 = 0 → (update_one coll oid upd).1 = coll := by
  induction coll with
  | nil => intro _; rfl
  | cons d rest ih =>
    intro h
    by_cases h0 : dGet d "_id" = some (.vOid oid)
    · simp [update_one, h0] at h
    · have h2 : (update_one rest oid upd).2 = 0 := by
        simpa [update_one, h0] using h
      simp [update_one, h0, ih h2]

/-- Decomposition of a successful `update_one`: the collection splits
around the first matching document, which is replaced by its `$set`
image while every other document is untouched. -/
theorem update_one_found (coll : List Doc) (oid : String) (upd : Doc)
    (h : (update_one coll oid upd).2 ≠ 0) :
    ∃ pre d post, coll = pre ++ d :: post ∧
      (∀ d0 ∈ pre, dGet d0 "_id" ≠ some (.vOid oid)) ∧
      dGet d "_id" = some (.vOid oid) ∧
      (update_one coll oid upd).1 = pre ++ applySet d upd :: post := by
  induction coll with
  | nil => simp [update_one] at h
  | cons d0 rest ih =>
    by_cases h0 : dGet d0 "_id" = some (.vOid oid)
    · exact ⟨[], d0, rest, rfl, by simp, h0, by simp [update_one, h0]⟩
    · have h2 : (update_one rest oid upd).2 ≠ 0 := by
        simpa [update_one, h0] using h
      rcases ih h2 with ⟨pre, d, post, hc, hpre, hd, hres⟩
      refine ⟨d0 :: pre, d, post, by simp [hc], ?_, hd, by simp [update_one, h0, hres]⟩
      intro x hx
      rcases List.mem_cons.mp hx with h3 | h3
      · subst h3; exact h0
      · exact hpre x h3

/-- With duplicate-free keys, `$set` gives every key of the update
document its value from the update document. -/
theorem applySet_dGet_mem (upd : Doc) (d : Doc) (k : String) (v : BVal)
    (hnodup : (upd.map Prod.fst).Nodup) (h : dGet upd k = some v) :
    dGet (applySet d upd) k = some v := by
  induction upd generalizing d with
  | nil => simp [dGet] at h
  | cons kv rest ih =>
    cases kv with
    | mk k0 v0 =>
      have step : applySet d ((k0, v0) :: rest) = applySet (dSet d k0 v0) rest := rfl
      rw [step]
      rw [List.map_cons] at hnodup
      rcases List.nodup_cons.mp hnodup with ⟨hnot, hrest⟩
      by_cases h0 : k0 = k
      · subst h0
        have hv : v = v0 := by
          simp [dGet] at h
          exact h.symm
        subst hv
        have hfar : ∀ kv0 ∈ rest, kv0.1 ≠ k0 := by
          intro kv0 hkv0 hh
          apply hnot
          rw [← hh]
          exact List.mem_map.mpr ⟨kv0, hkv0, rfl⟩
        rw [applySet_dGet_notMem rest _ k0 hfar, dGet_dSet_self]
      · have h1 : dGet rest k = some v := by simpa [dGet, h0] using h
        exact ih (dSet d k0 v0) hrest h1

/-- The key list of the PUT update payload, for any card. -/
theorem update_data_keys_list (card : Flashcard) (now : Int) :
    (dSet card.model_dump "updated_at" (.vDatetime now)).map Prod.fst =
      ["question", "answer", "deck", "tags", "difficulty", "updated_at"] := by
  simp [Flashcard.model_dump, dSet]

/-- The frame property of the PUT update payload: any field other than
the five model fields and `updated_at` is unchanged by the `$set`. -/
theorem applySet_update_data_frame (d : Doc) (card : Flashcard) (now : Int)
    (k : String)
    (h : ¬k ∈ ["question", "answer", "deck", "tags", "difficulty", "updated_at"]) :
    dGet (applySet d (dSet card.model_dump "updated_at" (.vDatetime now))) k = dGet d k :=
  applySet_dGet_notMem _ _ _ (fun kv hkv hh => h (hh ▸ update_data_keys card now kv hkv))

/-- The PUT update payload never touches `_id`. -/
theorem update_data_no_id (card : Flashcard) (now : Int) :
    ∀ kv ∈ dSet card.model_dump "updated_at" (.vDatetime now), kv.1 ≠ "_id" := by
  intro kv hkv hh
  have h1 := update_data_keys card now kv hkv
  rw [hh] at h1
  simp at h1

/-- `create_flashcard` never lets an exception escape: the `find_one`
after the insert always finds the inserted document. -/
theorem create_flashcard_no_exn (db : Option DBState) (card : Flashcard)
    (newOid m : String) : (create_flashcard db card newOid).response ≠ .exn m := by
  cases db with
  | none => simp [create_flashcard]
  | some st =>
    have h : dGet (dSet card.model_dump "_id" (.vOid newOid)) "_id" =
        some (.vOid newOid) := dGet_dSet_self _ _ _
    rcases find_one_append st.flashcard _ newOid h with ⟨x, hx⟩
    simp [create_flashcard, create_document, hx]

/-- `update_flashcard` never lets an exception escape: the `$set` never
touches `_id`, so after a matched update the re-read succeeds. -/
theorem update_flashcard_no_exn (db : Option DBState) (card_id : String)
    (card : Flashcard) (now : Int) (m : String) :
    (update_flashcard db card_id card now).response ≠ .exn m := by
  cases db with
  | none => simp [update_flashcard]
  | some st =>
    cases hp : parseObjectId card_id with
    | none => simp [update_flashcard, hp]
    | some oid =>
      by_cases hm : (update_one st.flashcard oid
          (dSet card.model_dump "updated_at" (.vDatetime now))).2 = 0
      · simp [update_flashcard, hp, hm]
      · rcases update_one_find st.flashcard oid _ (update_data_no_id card now) hm
          with ⟨d, hd⟩
        simp [update_flashcard, hp, hm, hd]

/-- The read route only raises 400, 404 or 500. -/
theorem get_flashcard_errors (db : Option DBState) (card_id : String)
    (s : Nat) (det : String)
    (h : (get_flashcard db card_id).response = .err s det) : errAllowed s det := by
  cases db with
  | none =>
    simp [get_flashcard] at h
    exact Or.inr (Or.inr ⟨h.1.symm, h.2.symm⟩)
  | some st =>
    cases hp : parseObjectId card_id with
    | none =>
      simp [get_flashcard, hp] at h
      exact Or.inl ⟨h.1.symm, h.2.symm⟩
    | some oid =>
      cases hf : find_one st.flashcard oid with
      | none =>
        simp [get_flashcard, hp, hf] at h
        exact Or.inr (Or.inl ⟨h.1.symm, h.2.symm⟩)
      | some d =>
        by_cases hd : d = ([] : Doc)
        · simp [get_flashcard, hp, hf, hd] at h
          exact Or.inr (Or.inl ⟨h.1.symm, h.2.symm⟩)
        · simp [get_flashcard, hp, hf, hd] at h

/-- The list route only raises 500. -/
theorem list_flashcards_errors (db : Option DBState) (deck tag : Option String)
    (limit : Option Nat) (s : Nat) (det : String)
    (h : (list_flashcards db deck tag limit).response = .err s det) :
    errAllowed s det := by
  cases db with
  | none =>
    simp [list_flashcards] at h
    exact Or.inr (Or.inr ⟨h.1.symm, h.2.symm⟩)
  | some st => simp [list_flashcards] at h

/-- The create route only raises 500. -/
theorem create_flashcard_errors (db : Option DBState) (card : Flashcard)
    (newOid : String) (s : Nat) (det : String)
    (h : (create_flashcard db card newOid).response = .err s det) :
    errAllowed s det := by
  cases db with
  | none =>
    simp [create_flashcard] at h
    exact Or.inr (Or.inr ⟨h.1.symm, h.2.symm⟩)
  | some st =>
    cases hf : find_one (create_document st card newOid).1.flashcard
        (create_document st card newOid).2 with
    | none => simp [create_flashcard, hf] at h
    | some d => simp [create_flashcard, hf] at h

/-- The update route only raises 400, 404 or 500. -/
theorem update_flashcard_errors (db : Option DBState) (card_id : String)
    (card : Flashcard) (now : Int) (s : Nat) (det : String)
    (h : (update_flashcard db card_id card now).response = .err s det) :
    errAllowed s det := by
  cases db with
  | none =>
    simp [update_flashcard] at h
    exact Or.inr (Or.inr ⟨h.1.symm, h.2.symm⟩)
  | some st =>
    cases hp : parseObjectId card_id with
    | none =>
      simp [update_flashcard, hp] at h
      exact Or.inl ⟨h.1.symm, h.2.symm⟩
    | some oid =>
      by_cases hm : (update_one st.flashcard oid
          (dSet card.model_dump "updated_at" (.vDatetime now))).2 = 0
      · simp [update_flashcard, hp, hm] at h
        exact Or.inr (Or.inl ⟨h.1.symm, h.2.symm⟩)
      · cases hf : find_one (update_one st.flashcard oid
            (dSet card.model_dump "updated_at" (.vDatetime now))).1 oid with
        | none => simp [update_flashcard, hp, hm, hf] at h
        | some d => simp [update_flashcard, hp, hm, hf] at h

/-- The delete route only raises 400, 404 or 500. -/
theorem delete_flashcard_errors (db : Option DBState) (card_id : String)
    (s : Nat) (det : String)
    (h : (delete_flashcard db card_id).response = .err s det) : errAllowed s det := by
  cases db with
  | none =>
    simp [delete_flashcard] at h
    exact Or.inr (Or.inr ⟨h.1.symm, h.2.symm⟩)
  | some st =>
    cases hp : parseObjectId card_id with
    | none =>
      simp [delete_flashcard, hp] at h
      exact Or.inl ⟨h.1.symm, h.2.symm⟩
    | some oid =>
      by_cases hm : (delete_one st.flashcard oid).2 = 0
      · simp [delete_flashcard, hp, hm] at h
        exact Or.inr (Or.inl ⟨h.1.symm, h.2.symm⟩)
      · simp [delete_flashcard, hp, hm] at h

/-- The list route never lets an exception escape. -/
theorem list_flashcards_no_exn (db : Option DBState) (deck tag : Option String)
    (limit : Option Nat) (m : String) :
    (list_flashcards db deck tag limit).response ≠ .exn m := by
  cases db <;> simp [list_flashcards]

/-- The read route never lets an exception escape. -/
theorem get_flashcard_no_exn (db : Option DBState) (card_id m : String) :
    (get_flashcard db card_id).response ≠ .exn m := by
  cases db with
  | none => simp [get_flashcard]
  | some st =>
    cases hp : parseObjectId card_id with
    | none => simp [get_flashcard, hp]
    | some oid =>
      cases hf : find_one st.flashcard oid with
      | none => simp [get_flashcard, hp, hf]
      | some d =>
        by_cases hd : d = ([] : Doc) <;> simp [get_flashcard, hp, hf, hd]

/-- The delete route never lets an exception escape. -/
theorem delete_flashcard_no_exn (db : Option DBState) (card_id m : String) :
    (delete_flashcard db card_id).response ≠ .exn m := by
  cases db with
  | none => simp [delete_flashcard]
  | some st =>
    cases hp : parseObjectId card_id with
    | none => simp [delete_flashcard, hp]
    | some oid =>
      by_cases hm : (delete_one st.flashcard oid).2 = 0 <;>
        simp [delete_flashcard, hp, hm]

/-! ### Claim theorems -/

/-- C2: for every string `card_id` that cannot be parsed as an ObjectId,
each of `get_flashcard`, `update_flashcard` and `delete_flashcard` fails
with HTTP 400 "Invalid ID" before issuing any database operation, so the
database state is unchanged by such a request. -/
theorem c2_invalid_id_rejected_before_db (st : DBState) (card_id : String)
    (card : Flashcard) (now : Int)
    (h : parseObjectId card_id = none) :
    get_flashcard (some st) card_id = ⟨.err 400 "Invalid ID", some st, []⟩ ∧
    update_flashcard (some st) card_id card now = ⟨.err 400 "Invalid ID", some st, []⟩ ∧
    delete_flashcard (some st) card_id = ⟨.err 400 "Invalid ID", some st, []⟩ := by
  refine ⟨?_, ?_, ?_⟩ <;>
    simp [get_flashcard, update_flashcard, delete_flashcard, h]

/-- Witness for C2 at the unparsable id `"nope"` and an empty database. -/
theorem c2_invalid_id_rejected_before_db_witness :
    get_flashcard (some ⟨[]⟩) "nope" = ⟨.err 400 "Invalid ID", some ⟨[]⟩, []⟩ ∧
    update_flashcard (some ⟨[]⟩) "nope" ⟨"q", "a", none, none, none⟩ 0 =
      ⟨.err 400 "Invalid ID", some ⟨[]⟩, []⟩ ∧
    delete_flashcard (some ⟨[]⟩) "nope" = ⟨.err 400 "Invalid ID", some ⟨[]⟩, []⟩ :=
  c2_invalid_id_rejected_before_db ⟨[]⟩ "nope" ⟨"q", "a", none, none, none⟩ 0 (by decide)

/-- C7: the data model has exactly one entity, `Flashcard`, with exactly
five fields, each a scalar or a list; `model_dump` of any card produces
exactly those five fields. -/
theorem c7_single_entity_five_fields :
    dataModelEntities.map Prod.fst = ["Flashcard"] ∧
    flashcardEntityFields.length = 5 ∧
    flashcardEntityFields.all
      (fun fk => fk.2 = FieldKind.scalar || fk.2 = FieldKind.listOfStrings) = true ∧
    ∀ c : Flashcard, c.model_dump.map Prod.fst = flashcardEntityFields.map Prod.fst :=
  ⟨rfl, rfl, rfl, fun _ => rfl⟩

/-- C8: the application exposes exactly the five flashcard CRUD routes
(list, create, read, update, delete) at their stated methods and paths,
and each of the four remaining routes is a diagnostic or schema endpoint
whose driver-call trace never reads or writes the flashcard
collection. -/
theorem c8_route_surface :
    appRoutes.filter (fun r => isFlashcardCrud r.handler) =
      [⟨"GET", "/api/flashcards", .hListFlashcards⟩,
       ⟨"POST", "/api/flashcards", .hCreateFlashcard⟩,
       ⟨"GET", "/api/flashcards/\x7bcard_id\x7d", .hGetFlashcard⟩,
       ⟨"PUT", "/api/flashcards/\x7bcard_id\x7d", .hUpdateFlashcard⟩,
       ⟨"DELETE", "/api/flashcards/\x7bcard_id\x7d", .hDeleteFlashcard⟩] ∧
    appRoutes.length = 9 ∧
    (∀ db : Option DBState,
      (read_root db).ops = [] ∧ (hello db).ops = [] ∧ (get_schema db).ops = []) ∧
    (∀ (db : Option DBState) (dbName : Option String)
       (listResult : Except String (List String)) (urlSet nameSet : Bool),
      (test_database db dbName listResult urlSet nameSet).ops.all
        (fun o => !opTouchesFlashcards o) = true) := by
  refine ⟨by decide, rfl, fun _ => ⟨rfl, rfl, rfl⟩, fun db _ _ _ _ => ?_⟩
  cases db <;> rfl

/-- C9: an empty-string `deck` or `tag` query parameter is tested for
truthiness, so it is ignored exactly like an absent parameter and yields
the same result. -/
theorem c9_empty_string_params_ignored (db : Option DBState)
    (deck tag : Option String) (limit : Option Nat) :
    list_flashcards db (some "") tag limit = list_flashcards db none tag limit ∧
    list_flashcards db deck (some "") limit = list_flashcards db deck none limit := by
  cases db <;> constructor <;> simp [list_flashcards, truthy]

/-- C10: `serialize_doc` is idempotent: one application removes `_id`
and converts every datetime value to a string, so a second application
changes nothing. -/
theorem c10_serialize_doc_idempotent (doc : Doc) :
    serialize_doc (serialize_doc doc) = serialize_doc doc := by
  by_cases h : doc = []
  · subst h; rfl
  · rcases serialize_doc_shape doc with hsh | ⟨d1, hsh⟩
    · rw [hsh]; rfl
    · rw [hsh]
      exact serialize_doc_fixed d1

/-- C5: serialization of a document with an ObjectId `_id` (as every
stored document has): the ObjectId reappears as its string form under
`id`, `_id` is removed, every datetime value becomes its UTC ISO-8601
string, and every other field is unchanged.  The third conjunct gives
the value of every key other than `_id` and `id` (`convDT` is the
identity on non-datetimes); the fourth spells out the datetime case. -/
theorem c5_serialize_doc_spec (doc : Doc) (hex : String)
    (hid : dGet doc "_id" = some (.vOid hex)) :
    dGet (serialize_doc doc) "id" = some (.vStr hex) ∧
    dGet (serialize_doc doc) "_id" = none ∧
    (∀ k, k ≠ "_id" → k ≠ "id" →
      dGet (serialize_doc doc) k = (dGet doc k).map convDT) ∧
    (∀ k t, k ≠ "_id" → k ≠ "id" → dGet doc k = some (.vDatetime t) →
      dGet (serialize_doc doc) k = some (.vStr (isoUtc t))) := by
  have hne : doc ≠ [] := by
    intro hh
    rw [hh] at hid
    simp [dGet] at hid
  have hform : serialize_doc doc =
      List.map (fun kv => (kv.1, convDT kv.2)) (dPop (dSet doc "id" (.vStr hex)) "_id") := by
    unfold serialize_doc
    rw [if_neg hne, hid]
  have hid_ne : ("id" : String) ≠ "_id" := by decide
  refine ⟨?_, ?_, ?_, ?_⟩
  · rw [hform, dGet_mapConv, dGet_dPop_ne _ _ _ hid_ne, dGet_dSet_self]
    rfl
  · rw [hform, dGet_mapConv, dGet_dPop_self]
    rfl
  · intro k hk1 hk2
    rw [hform, dGet_mapConv, dGet_dPop_ne _ _ _ hk1, dGet_dSet_ne _ _ _ _ hk2]
  · intro k t hk1 hk2 hk3
    rw [hform, dGet_mapConv, dGet_dPop_ne _ _ _ hk1, dGet_dSet_ne _ _ _ _ hk2, hk3]
    rfl

/-- Witness for C5 at a concrete stored document with an ObjectId `_id`,
a string field and a datetime field. -/
theorem c5_serialize_doc_spec_witness :
    dGet (serialize_doc [("_id", .vOid "0123456789abcdef01234567"),
        ("question", .vStr "q"), ("created_at", .vDatetime 0)]) "id" =
      some (.vStr "0123456789abcdef01234567") ∧
    dGet (serialize_doc [("_id", .vOid "0123456789abcdef01234567"),
        ("question", .vStr "q"), ("created_at", .vDatetime 0)]) "_id" = none ∧
    dGet (serialize_doc [("_id", .vOid "0123456789abcdef01234567"),
        ("question", .vStr "q"), ("created_at", .vDatetime 0)]) "question" =
      (dGet [("_id", .vOid "0123456789abcdef01234567"),
        ("question", .vStr "q"), ("created_at", .vDatetime 0)] "question").map convDT ∧
    dGet (serialize_doc [("_id", .vOid "0123456789abcdef01234567"),
        ("question", .vStr "q"), ("created_at", .vDatetime 0)]) "created_at" =
      some (.vStr (isoUtc 0)) := by
  have h := c5_serialize_doc_spec
    [("_id", .vOid "0123456789abcdef01234567"),
     ("question", .vStr "q"), ("created_at", .vDatetime 0)]
    "0123456789abcdef01234567" rfl
  exact ⟨h.1, h.2.1, h.2.2.1 "question" (by decide) (by decide),
    h.2.2.2 "created_at" 0 (by decide) (by decide) rfl⟩

/-- C6: `list_flashcards` builds a filter whose `deck` clause is present
exactly when a (truthy) deck value is given and whose `tags` clause
equals the given (truthy) tag, queries the flashcard collection with
that filter, and truncates only by the optional result-count limit (no
offset, cursor, or page parameter exists in the route's signature). -/
theorem c6_list_filter_and_limit (st : DBState) (deck tag : Option String)
    (limit : Option Nat) :
    ∃ f : Doc,
      (list_flashcards (some st) deck tag limit).ops = [.opFind "flashcard" f limit] ∧
      dGet f "deck" = (if truthy deck then some (.vStr (deck.getD "")) else none) ∧
      dGet f "tags" = (if truthy tag then some (.vStr (tag.getD "")) else none) ∧
      (f.map Prod.fst).Sublist ["deck", "tags"] ∧
      (list_flashcards (some st) deck tag limit).response =
        .okList ((truncateBy limit
          (st.flashcard.filter (fun d => docMatches d f))).map serialize_doc) ∧
      truncateBy none (st.flashcard.filter (fun d => docMatches d f)) =
        st.flashcard.filter (fun d => docMatches d f) := by
  refine ⟨(if truthy deck then [("deck", .vStr (deck.getD ""))] else []) ++
          (if truthy tag then [("tags", .vStr (tag.getD ""))] else []),
    ?_, ?_, ?_, ?_, ?_, rfl⟩ <;>
  by_cases h1 : truthy deck <;> by_cases h2 : truthy tag <;>
    simp [list_flashcards, get_documents, dGet, h1, h2]

/-- C1: with the database available and a parsable `card_id`, the 404
"Flashcard not found" decision mirrors the driver's result flags: read
404s exactly when `find_one` returns no document, update exactly when
`matched_count == 0`, delete exactly when `deleted_count == 0`.  The
hypothesis that stored documents are non-empty reflects that MongoDB
documents always carry at least `_id` (the read route's Python test is
the truthiness check `if not doc`). -/
theorem c1_404_mirrors_driver_flags (st : DBState) (card_id oid : String)
    (card : Flashcard) (now : Int)
    (hparse : parseObjectId card_id = some oid)
    (hne : ∀ d ∈ st.flashcard, d ≠ ([] : Doc)) :
    ((get_flashcard (some st) card_id).response = .err 404 "Flashcard not found" ↔
      find_one st.flashcard oid = none) ∧
    ((update_flashcard (some st) card_id card now).response =
        .err 404 "Flashcard not found" ↔
      (update_one st.flashcard oid
        (dSet card.model_dump "updated_at" (.vDatetime now))).2 = 0) ∧
    ((delete_flashcard (some st) card_id).response = .err 404 "Flashcard not found" ↔
      (delete_one st.flashcard oid).2 = 0) := by
  refine ⟨?_, ?_, ?_⟩
  · cases hfo : find_one st.flashcard oid with
    | none => simp [get_flashcard, hparse, hfo]
    | some d =>
      have hd : d ≠ ([] : Doc) := hne d (find_one_mem _ _ _ hfo)
      simp [get_flashcard, hparse, hfo, hd]
  · by_cases hm : (update_one st.flashcard oid
        (dSet card.model_dump "updated_at" (.vDatetime now))).2 = 0
    · simp [update_flashcard, hparse, hm]
    · cases hfo : find_one (update_one st.flashcard oid
          (dSet card.model_dump "updated_at" (.vDatetime now))).1 oid with
      | none => simp [update_flashcard, hparse, hm, hfo]
      | some d => simp [update_flashcard, hparse, hm, hfo]
  · by_cases hm : (delete_one st.flashcard oid).2 = 0 <;>
      simp [delete_flashcard, hparse, hm]

/-- Witness for C1: a valid 24-hex id against an empty collection, where
all three driver flags report "no document" and all three routes 404. -/
theorem c1_404_mirrors_driver_flags_witness :
    ((get_flashcard (some ⟨[]⟩) "aaaaaaaaaaaaaaaaaaaaaaaa").response =
        .err 404 "Flashcard not found" ↔
      find_one (DBState.mk []).flashcard "aaaaaaaaaaaaaaaaaaaaaaaa" = none) ∧
    ((update_flashcard (some ⟨[]⟩) "aaaaaaaaaaaaaaaaaaaaaaaa"
        ⟨"q", "a", none, none, none⟩ 0).response = .err 404 "Flashcard not found" ↔
      (update_one (DBState.mk []).flashcard "aaaaaaaaaaaaaaaaaaaaaaaa"
        (dSet (Flashcard.model_dump ⟨"q", "a", none, none, none⟩)
          "updated_at" (.vDatetime 0))).2 = 0) ∧
    ((delete_flashcard (some ⟨[]⟩) "aaaaaaaaaaaaaaaaaaaaaaaa").response =
        .err 404 "Flashcard not found" ↔
      (delete_one (DBState.mk []).flashcard "aaaaaaaaaaaaaaaaaaaaaaaa").2 = 0) :=
  c1_404_mirrors_driver_flags ⟨[]⟩ "aaaaaaaaaaaaaaaaaaaaaaaa" "aaaaaaaaaaaaaaaaaaaaaaaa"
    ⟨"q", "a", none, none, none⟩ 0 (by decide) (by simp)

/-- C3: with the database handle unavailable (`db is None`) every one of
the five flashcard endpoints fails with HTTP 500 "Database not
available" before any other processing (no driver call, no id parsing);
and across all inputs the flashcard business logic produces no error
response other than 400 "Invalid ID", 404 "Flashcard not found" and 500
"Database not available" (in particular no handler lets an exception
escape). -/
theorem c3_db_unavailable_and_error_surface :
    (∀ (deck tag : Option String) (limit : Option Nat),
      list_flashcards none deck tag limit =
        ⟨.err 500 "Database not available", none, []⟩) ∧
    (∀ (card : Flashcard) (newOid : String),
      create_flashcard none card newOid =
        ⟨.err 500 "Database not available", none, []⟩) ∧
    (∀ card_id : String,
      get_flashcard none card_id = ⟨.err 500 "Database not available", none, []⟩) ∧
    (∀ (card_id : String) (card : Flashcard) (now : Int),
      update_flashcard none card_id card now =
        ⟨.err 500 "Database not available", none, []⟩) ∧
    (∀ card_id : String,
      delete_flashcard none card_id =
        ⟨.err 500 "Database not available", none, []⟩) ∧
    (∀ (db : Option DBState) (deck tag : Option String) (limit : Option Nat)
        (s : Nat) (det : String),
      (list_flashcards db deck tag limit).response = .err s det → errAllowed s det) ∧
    (∀ (db : Option DBState) (card : Flashcard) (newOid : String)
        (s : Nat) (det : String),
      (create_flashcard db card newOid).response = .err s det → errAllowed s det) ∧
    (∀ (db : Option DBState) (card_id : String) (s : Nat) (det : String),
      (get_flashcard db card_id).response = .err s det → errAllowed s det) ∧
    (∀ (db : Option DBState) (card_id : String) (card : Flashcard) (now : Int)
        (s : Nat) (det : String),
      (update_flashcard db card_id card now).response = .err s det →
        errAllowed s det) ∧
    (∀ (db : Option DBState) (card_id : String) (s : Nat) (det : String),
      (delete_flashcard db card_id).response = .err s det → errAllowed s det) ∧
    (∀ (db : Option DBState) (deck tag : Option String) (limit : Option Nat)
        (m : String), (list_flashcards db deck tag limit).response ≠ .exn m) ∧
    (∀ (db : Option DBState) (card : Flashcard) (newOid m : String),
      (create_flashcard db card newOid).response ≠ .exn m) ∧
    (∀ (db : Option DBState) (card_id m : String),
      (get_flashcard db card_id).response ≠ .exn m) ∧
    (∀ (db : Option DBState) (card_id : String) (card : Flashcard) (now : Int)
        (m : String), (update_flashcard db card_id card now).response ≠ .exn m) ∧
    (∀ (db : Option DBState) (card_id m : String),
      (delete_flashcard db card_id).response ≠ .exn m) :=
  ⟨fun _ _ _ => rfl, fun _ _ => rfl, fun _ => rfl, fun _ _ _ => rfl, fun _ => rfl,
   list_flashcards_errors, create_flashcard_errors, get_flashcard_errors,
   update_flashcard_errors, delete_flashcard_errors,
   list_flashcards_no_exn, create_flashcard_no_exn, get_flashcard_no_exn,
   fun db card_id card now m => update_flashcard_no_exn db card_id card now m,
   delete_flashcard_no_exn⟩

/-- Witness for C3: the read route at a concrete unavailable database
yields exactly the 500, that 500 is in the allowed error set, and no
exception escapes the read route on a concrete available database. -/
theorem c3_db_unavailable_and_error_surface_witness :
    get_flashcard none "x" = ⟨.err 500 "Database not available", none, []⟩ ∧
    errAllowed 500 "Database not available" ∧
    (get_flashcard (some ⟨[]⟩) "x").response ≠ .exn "TypeError" :=
  ⟨c3_db_unavailable_and_error_surface.2.2.1 "x",
   c3_db_unavailable_and_error_surface.2.2.2.2.2.2.2.1 none "x"
     500 "Database not available" rfl,
   c3_db_unavailable_and_error_surface.2.2.2.2.2.2.2.2.2.2.2.2.1
     (some ⟨[]⟩) "x" "TypeError"⟩

/-- C4 counterexample: the server does add and alter a stored field
beyond the supplied card.  For a stored document whose `updated_at` is
the datetime 3, a PUT whose card carries only the five model fields (no
`updated_at`) leaves the stored document with `updated_at` equal to the
server clock value 5: the server altered a stored field that is not a
field of the supplied card, and not merely as output shaping. -/
theorem c4_counterexample_server_sets_updated_at :
    (update_flashcard (some ⟨[[("_id", .vOid "aaaaaaaaaaaaaaaaaaaaaaaa"),
        ("question", .vStr "q"), ("answer", .vStr "a"),
        ("updated_at", .vDatetime 3)]]⟩)
      "aaaaaaaaaaaaaaaaaaaaaaaa" ⟨"q2", "a2", none, none, none⟩ 5).db =
      some ⟨[[("_id", .vOid "aaaaaaaaaaaaaaaaaaaaaaaa"),
        ("question", .vStr "q2"), ("answer", .vStr "a2"),
        ("updated_at", .vDatetime 5), ("deck", .vNull), ("tags", .vNull),
        ("difficulty", .vNull)]]⟩ ∧
    ¬("updated_at" ∈
      (Flashcard.model_dump ⟨"q2", "a2", none, none, none⟩).map Prod.fst) := by
  constructor
  · decide
  · decide

/-- C4 amended: for every valid ObjectId `card_id` matching a stored
document, `update_flashcard` applies to that document exactly the fields
of the supplied card plus a server-set `updated_at` timestamp (the
current time); every other stored document, and every field of the
matched document other than the five card fields and `updated_at`, is
left unchanged. -/
theorem c4_update_sets_card_fields_and_timestamp (st : DBState)
    (card_id oid : String) (card : Flashcard) (now : Int)
    (hparse : parseObjectId card_id = some oid)
    (hm : (update_one st.flashcard oid
        (dSet card.model_dump "updated_at" (.vDatetime now))).2 ≠ 0) :
    ∃ pre d post,
      st.flashcard = pre ++ d :: post ∧
      (∀ d0 ∈ pre, dGet d0 "_id" ≠ some (.vOid oid)) ∧
      dGet d "_id" = some (.vOid oid) ∧
      (update_flashcard (some st) card_id card now).db =
        some ⟨pre ++
          applySet d (dSet card.model_dump "updated_at" (.vDatetime now)) :: post⟩ ∧
      (∀ k v, dGet (dSet card.model_dump "updated_at" (.vDatetime now)) k = some v →
        dGet (applySet d (dSet card.model_dump "updated_at" (.vDatetime now))) k =
          some v) ∧
      (∀ k, ¬k ∈ ["question", "answer", "deck", "tags", "difficulty", "updated_at"] →
        dGet (applySet d (dSet card.model_dump "updated_at" (.vDatetime now))) k =
          dGet d k) := by
  rcases update_one_found st.flashcard oid _ hm with ⟨pre, d, post, hc, hpre, hd, hres⟩
  refine ⟨pre, d, post, hc, hpre, hd, ?_, ?_, ?_⟩
  · have hdb : (update_flashcard (some st) card_id card now).db =
        some ⟨(update_one st.flashcard oid
          (dSet card.model_dump "updated_at" (.vDatetime now))).1⟩ := by
      cases hf : find_one (update_one st.flashcard oid
          (dSet card.model_dump "updated_at" (.vDatetime now))).1 oid with
      | none => simp [update_flashcard, hparse, hm, hf]
      | some x => simp [update_flashcard, hparse, hm, hf]
    rw [hdb, hres]
  · intro k v hkv
    exact applySet_dGet_mem _ d k v (by rw [update_data_keys_list]; decide) hkv
  · intro k hk
    exact applySet_update_data_frame d card now k hk

/-- Witness for the amended C4 at the counterexample's concrete input. -/
theorem c4_update_sets_card_fields_and_timestamp_witness :
    ∃ pre d post,
      (DBState.mk [[("_id", .vOid "aaaaaaaaaaaaaaaaaaaaaaaa"),
        ("question", .vStr "q"), ("answer", .vStr "a"),
        ("updated_at", .vDatetime 3)]]).flashcard = pre ++ d :: post ∧
      (∀ d0 ∈ pre, dGet d0 "_id" ≠ some (.vOid "aaaaaaaaaaaaaaaaaaaaaaaa")) ∧
      dGet d "_id" = some (.vOid "aaaaaaaaaaaaaaaaaaaaaaaa") ∧
      (update_flashcard (some ⟨[[("_id", .vOid "aaaaaaaaaaaaaaaaaaaaaaaa"),
          ("question", .vStr "q"), ("answer", .vStr "a"),
          ("updated_at", .vDatetime 3)]]⟩)
        "aaaaaaaaaaaaaaaaaaaaaaaa" ⟨"q2", "a2", none, none, none⟩ 5).db =
        some ⟨pre ++ applySet d (dSet (Flashcard.model_dump
          ⟨"q2", "a2", none, none, none⟩) "updated_at" (.vDatetime 5)) :: post⟩ ∧
      (∀ k v, dGet (dSet (Flashcard.model_dump ⟨"q2", "a2", none, none, none⟩)
          "updated_at" (.vDatetime 5)) k = some v →
        dGet (applySet d (dSet (Flashcard.model_dump ⟨"q2", "a2", none, none, none⟩)
          "updated_at" (.vDatetime 5))) k = some v) ∧
      (∀ k, ¬k ∈ ["question", "answer", "deck", "tags", "difficulty", "updated_at"] →
        dGet (applySet d (dSet (Flashcard.model_dump ⟨"q2", "a2", none, none, none⟩)
          "updated_at" (.vDatetime 5))) k = dGet d k) :=
  c4_update_sets_card_fields_and_timestamp
    ⟨[[("_id", .vOid "aaaaaaaaaaaaaaaaaaaaaaaa"),
       ("question", .vStr "q"), ("answer", .vStr "a"),
       ("updated_at", .vDatetime 3)]]⟩
    "aaaaaaaaaaaaaaaaaaaaaaaa" "aaaaaaaaaaaaaaaaaaaaaaaa"
    ⟨"q2", "a2", none, none, none⟩ 5 (by decide) (by decide)

end FlashcardApi
